import Mathlib

/-!
Shallow embedding of the enrollment and capacity-management core of the
mini-school-api repository: the data model (users, classes, students), the
ClassService and StudentService operations, and the AdminService dashboard
statistic.  Relational rows are Lean structures, tables are lists in
insertion order, SQL point lookups with limit 1 are List.find?, filtered
counts are List.filter lengths, and the SQL three-valued semantics of an
equality test on a nullable column is modelled by sqlEqOpt (NULL compared
with anything, including itself, is not true).  Thrown JS errors are an
explicit error result carrying the message; since a throw leaves already
performed writes in place, every operation returns the database state on
both the ok and the error path.
-/

/-- The role enum of the users table. -/
inductive Role where
  | admin
  | teacher
  | student
deriving DecidableEq

/-- A row of the users table. -/
structure User where
  id : Nat
  name : String
  email : String
  role : Role
deriving DecidableEq

/-- A row of the classes table.  The column named section in the source is
called sectionLabel here because section is a Lean keyword. -/
structure SchoolClass where
  id : Nat
  name : String
  sectionLabel : String
  teacherId : Option Nat
  createdAt : Nat
  updatedAt : Nat
deriving DecidableEq

/-- A row of the students table; classId is the nullable foreign key to
classes.id. -/
structure Student where
  id : Nat
  name : String
  age : Nat
  classId : Option Nat
  createdAt : Nat
  updatedAt : Nat
deriving DecidableEq

/-- The relational store: the three tables in insertion order, plus the two
serial sequences that assign fresh primary keys. -/
structure DB where
  users : List User
  classes : List SchoolClass
  students : List Student
  nextClassId : Nat
  nextStudentId : Nat
deriving DecidableEq

/-- The error kinds of the specification; each thrown message of the source
is tagged with its kind and carries the message text. -/
inductive Err where
  | notFound (msg : String)
  | invalidReference (msg : String)
  | conflict (msg : String)
  | capacityExceeded (msg : String)
  | preconditionFailed (msg : String)
  | internal (msg : String)
deriving DecidableEq

/-- Result of one service operation: the value or the thrown error, in both
cases together with the database state after the operation (a throw keeps
the writes already performed before it). -/
inductive Res (α : Type) where
  | ok (a : α) (db : DB)
  | error (e : Err) (db : DB)
deriving DecidableEq

/-- JS truthiness of an optional numeric value: undefined, null and 0 are
falsy. -/
def truthy : Option Nat → Bool
  | none => false
  | some n => n != 0

/-- JS `x || d` on an optional numeric value. -/
def jsOr (v : Option Nat) (d : Nat) : Nat :=
  if truthy v then v.getD 0 else d

/-- SQL equality on a nullable integer column: a comparison involving NULL
is not true, so a NULL value does not even equal itself. -/
def sqlEqOpt : Option Nat → Option Nat → Bool
  | some a, some b => a == b
  | _, _ => false

/-- Number of students of the list whose classId equals the given class id
(the SQL count where classId = cid; NULL rows never match). -/
def countIn (l : List Student) (cid : Nat) : Nat :=
  (l.filter (fun s => s.classId == some cid)).length

/-- Enrolled-student count of a class in the database. -/
def classStudentCount (db : DB) (cid : Nat) : Nat :=
  countIn db.students cid

/-- Number of classes owned by the given teacher. -/
def teacherOwns (db : DB) (tid : Nat) : Nat :=
  (db.classes.filter (fun c => c.teacherId == some tid)).length

/-- The drizzle update applied to the students table by enroll, unenroll and
updateStudent when only the class reference changes: the row with the given
id gets the new classId and a fresh updatedAt, all other rows are kept. -/
def setClass (sid : Nat) (v : Option Nat) (now : Nat) (s : Student) : Student :=
  if s.id == sid then { s with classId := v, updatedAt := now } else s

/-- The drizzle update applied by updateStudent: fields that were passed
replace the old values (classId distinguishes absent, null and a number),
updatedAt is refreshed; the row with the given id is rewritten, all other
rows are kept. -/
def updApply (now : Nat) (id : Nat) (name? : Option String) (age? : Option Nat)
    (classId? : Option (Option Nat)) (s : Student) : Student :=
  if s.id == id then
    { s with name := name?.getD s.name, age := age?.getD s.age,
             classId := match classId? with | none => s.classId | some v => v,
             updatedAt := now }
  else s

namespace ClassService

/-- ClassService.getClassById: point lookup with limit 1. -/
def getClassById (db : DB) (id : Nat) : Option SchoolClass :=
  db.classes.find? (fun c => c.id == id)

/-- ClassService.createClass.  The duplicate check selects only the first
row whose name matches (limit 1, insertion order) and compares its section;
the teacher check runs only when teacherId is truthy and requires a user
with that id and role teacher; there is no teacher-capacity check.  The
inserted row stores teacherId or null (JS `teacherId || null`). -/
def createClass (now : Nat) (name sectionLabel : String) (teacherId? : Option Nat)
    (db : DB) : Res SchoolClass :=
  let firstWithName := db.classes.find? (fun c => c.name == name)
  if (match firstWithName with
      | some c => c.sectionLabel == sectionLabel
      | none => false) then
    .error (.conflict ("Class " ++ name ++ " - Section " ++ sectionLabel ++ " already exists")) db
  else if truthy teacherId? &&
      (db.users.find? (fun u => u.id == teacherId?.getD 0 && u.role == Role.teacher)).isNone then
    .error (.invalidReference "Invalid teacher ID. User must exist and have teacher role.") db
  else
    let newClass : SchoolClass :=
      { id := db.nextClassId, name := name, sectionLabel := sectionLabel,
        teacherId := if truthy teacherId? then teacherId? else none,
        createdAt := now, updatedAt := now }
    .ok newClass { db with classes := db.classes ++ [newClass],
                           nextClassId := db.nextClassId + 1 }

/-- ClassService.enrollStudent: class existence, student existence, the
already-enrolled conflict, then the 5-seat capacity check, then the write. -/
def enrollStudent (now : Nat) (classId studentId : Nat) (db : DB) : Res Unit :=
  match getClassById db classId with
  | none => .error (.notFound "Class not found") db
  | some classInfo =>
    match db.students.find? (fun s => s.id == studentId) with
    | none => .error (.notFound "Student not found") db
    | some student =>
      if student.classId == some classId then
        .error (.conflict "Student is already enrolled in this class") db
      else if 5 ≤ classStudentCount db classId then
        .error (.capacityExceeded ("Class section \"" ++ classInfo.name ++ " - " ++
          classInfo.sectionLabel ++ "\" is full. Maximum 5 students allowed per section.")) db
      else
        let students2 := db.students.map (setClass studentId (some classId) now)
        match students2.find? (fun s => s.id == studentId) with
        | some _ => .ok () { db with students := students2 }
        | none => .error (.internal "Failed to enroll student") { db with students := students2 }

/-- ClassService.removeStudentFromClass: student existence, then the JS
truthiness check on the current classId (null is falsy), then the write. -/
def removeStudentFromClass (now : Nat) (studentId : Nat) (db : DB) : Res Unit :=
  match db.students.find? (fun s => s.id == studentId) with
  | none => .error (.notFound "Student not found") db
  | some student =>
    if !truthy student.classId then
      .error (.preconditionFailed "Student is not enrolled in any class") db
    else
      let students2 := db.students.map (setClass studentId none now)
      match students2.find? (fun s => s.id == studentId) with
      | some _ => .ok () { db with students := students2 }
      | none => .error (.internal "Failed to remove student from class") { db with students := students2 }

/-- ClassService.assignTeacherToClass: class existence, teacher existence
with role teacher, then the 5-sections-per-teacher count (with no exception
for a class already owned by that teacher), then the write. -/
def assignTeacherToClass (now : Nat) (classId teacherId : Nat) (db : DB) : Res SchoolClass :=
  match getClassById db classId with
  | none => .error (.notFound "Class not found") db
  | some _ =>
    match db.users.find? (fun u => u.id == teacherId && u.role == Role.teacher) with
    | none => .error (.invalidReference "Teacher not found or user is not a teacher") db
    | some _ =>
      if 5 ≤ (db.classes.filter (fun c => c.teacherId == some teacherId)).length then
        .error (.capacityExceeded "Teacher cannot be assigned to more than 5 sections") db
      else
        let classes2 := db.classes.map (fun c =>
          if c.id == classId then { c with teacherId := some teacherId, updatedAt := now } else c)
        match classes2.find? (fun c => c.id == classId) with
        | some updated => .ok updated { db with classes := classes2 }
        | none => .error (.internal "Failed to assign teacher to class") { db with classes := classes2 }

/-- ClassService.removeTeacherFromClass: class existence, then the write
clearing the teacher reference (idempotent). -/
def removeTeacherFromClass (now : Nat) (classId : Nat) (db : DB) : Res SchoolClass :=
  match getClassById db classId with
  | none => .error (.notFound "Class not found") db
  | some _ =>
    let classes2 := db.classes.map (fun c =>
      if c.id == classId then { c with teacherId := none, updatedAt := now } else c)
    match classes2.find? (fun c => c.id == classId) with
    | some updated => .ok updated { db with classes := classes2 }
    | none => .error (.internal "Failed to remove teacher from class") { db with classes := classes2 }

end ClassService

/-- The nested class summary embedded in a student row returned by the
StudentService (id, name, section of the joined class). -/
structure ClassSummary where
  id : Nat
  name : String
  sectionLabel : String
deriving DecidableEq

/-- A student row as returned by the StudentService: the row plus the
joined class summary or null. -/
structure StudentWithClass where
  id : Nat
  name : String
  age : Nat
  classId : Option Nat
  createdAt : Nat
  updatedAt : Nat
  classSummary : Option ClassSummary
deriving DecidableEq

/-- Pagination block of a student listing. -/
structure Pagination where
  currentPage : Nat
  totalPages : Nat
  totalStudents : Nat
  limit : Nat
deriving DecidableEq

/-- A page of students together with its pagination block. -/
structure PaginatedStudents where
  students : List StudentWithClass
  pagination : Pagination
deriving DecidableEq

namespace StudentService

/-- The left join of a student row with its class, followed by the JS
truthiness guard on the joined id (`student.class?.id ? student.class :
null`): a null classId, a dangling reference, or a joined id of 0 all give
null. -/
def joinClassSummary (db : DB) (classId? : Option Nat) : Option ClassSummary :=
  match classId? with
  | none => none
  | some cid =>
    match db.classes.find? (fun c => c.id == cid) with
    | none => none
    | some c =>
      if c.id != 0 then some { id := c.id, name := c.name, sectionLabel := c.sectionLabel }
      else none

/-- A student row shaped as the StudentService returns it. -/
def viewOf (db : DB) (s : Student) : StudentWithClass :=
  { id := s.id, name := s.name, age := s.age, classId := s.classId,
    createdAt := s.createdAt, updatedAt := s.updatedAt,
    classSummary := joinClassSummary db s.classId }

/-- StudentService.getStudentById: point lookup joined with the class. -/
def getStudentById (db : DB) (id : Nat) : Res StudentWithClass :=
  match db.students.find? (fun s => s.id == id) with
  | none => .error (.notFound "Student not found") db
  | some s => .ok (viewOf db s) db

/-- The insert performed by StudentService.createStudent after its checks
pass: one new row with a fresh serial id and `classId || null`, then the
final getStudentById on the fresh id. -/
def createStudentInsert (now : Nat) (name : String) (age : Nat) (classId? : Option Nat)
    (db : DB) : Res StudentWithClass :=
  let newStudent : Student :=
    { id := db.nextStudentId, name := name, age := age,
      classId := if truthy classId? then classId? else none,
      createdAt := now, updatedAt := now }
  let db2 : DB := { db with students := db.students ++ [newStudent],
                            nextStudentId := db.nextStudentId + 1 }
  getStudentById db2 newStudent.id

/-- StudentService.createStudent: when classId is truthy, the class must
exist and have fewer than 5 students, and only then is the row inserted; a
failed check throws before any write. -/
def createStudent (now : Nat) (name : String) (age : Nat) (classId? : Option Nat)
    (db : DB) : Res StudentWithClass :=
  if truthy classId? then
    match db.classes.find? (fun c => c.id == classId?.getD 0) with
    | none => .error (.invalidReference "Specified class does not exist") db
    | some existingClass =>
      if 5 ≤ classStudentCount db (classId?.getD 0) then
        .error (.capacityExceeded ("Class section \"" ++ existingClass.name ++ " - " ++
          existingClass.sectionLabel ++ "\" is full. Maximum 5 students allowed per section.")) db
      else createStudentInsert now name age classId? db
  else createStudentInsert now name age classId? db

/-- The drizzle update performed by StudentService.updateStudent: fields
that were passed replace the old values (classId distinguishes absent,
null and a number), updatedAt is refreshed, then the final getStudentById. -/
def updateStudentWrite (now : Nat) (id : Nat) (name? : Option String) (age? : Option Nat)
    (classId? : Option (Option Nat)) (db : DB) : Res StudentWithClass :=
  let students2 := db.students.map (updApply now id name? age? classId?)
  match students2.find? (fun s => s.id == id) with
  | none => .error (.internal "Failed to update student") { db with students := students2 }
  | some _ => getStudentById { db with students := students2 } id

/-- StudentService.updateStudent: student existence first; when a non-null
classId is passed, the target class must exist, and the capacity check runs
only when the target differs from the current class of the student; a null
or absent classId performs no class check at all. -/
def updateStudent (now : Nat) (id : Nat) (name? : Option String) (age? : Option Nat)
    (classId? : Option (Option Nat)) (db : DB) : Res StudentWithClass :=
  match getStudentById db id with
  | .error e db0 => .error e db0
  | .ok existingStudent _ =>
    match classId? with
    | some (some cid) =>
      (match db.classes.find? (fun c => c.id == cid) with
      | none => .error (.invalidReference "Specified class does not exist") db
      | some existingClass =>
        if existingStudent.classId != some cid then
          if 5 ≤ classStudentCount db cid then
            .error (.capacityExceeded ("Class section \"" ++ existingClass.name ++ " - " ++
              existingClass.sectionLabel ++ "\" is full. Maximum 5 students allowed per section.")) db
          else updateStudentWrite now id name? age? classId? db
        else updateStudentWrite now id name? age? classId? db)
    | _ => updateStudentWrite now id name? age? classId? db

/-- StudentService.getStudents: page and limit default through JS `||`
(so 1 and 10), the optional classId filter is guarded by JS truthiness,
the total count is taken over the filtered table, totalPages is the
ceiling of total over limit, and the returned page is the name-ascending
ordering of the filtered table, offset by (page - 1) * limit, limited to
limit rows, each joined with its class. -/
def getStudents (page? limit? classId? : Option Nat) (db : DB) : PaginatedStudents :=
  let page := jsOr page? 1
  let limit := jsOr limit? 10
  let offset := (page - 1) * limit
  let filtered := db.students.filter (fun s =>
    if truthy classId? then s.classId == some (classId?.getD 0) else true)
  let totalStudents := filtered.length
  let totalPages := (totalStudents + limit - 1) / limit
  let sorted := filtered.mergeSort (fun a b => a.name ≤ b.name)
  let pageList := (sorted.drop offset).take limit
  { students := pageList.map (viewOf db),
    pagination := { currentPage := page, totalPages := totalPages,
                    totalStudents := totalStudents, limit := limit } }

/-- StudentService.deleteStudent: existence check, then the row is removed. -/
def deleteStudent (id : Nat) (db : DB) : Res Unit :=
  match db.students.find? (fun s => s.id == id) with
  | none => .error (.notFound "Student not found") db
  | some _ =>
    let students2 := db.students.filter (fun s => !(s.id == id))
    .ok () { db with students := students2 }

end StudentService

/-- The dashboard statistics record of the AdminService. -/
structure DashboardStats where
  totalStudents : Nat
  activeClasses : Nat
  totalTeachers : Nat
  enrollmentRate : Nat
deriving DecidableEq

/-- JS Math.round of the fraction num / den for den > 0: half-up rounding,
floor(num / den + 1 / 2). -/
def jsMathRound (num den : Nat) : Nat :=
  (2 * num + den) / (2 * den)

namespace AdminService

/-- AdminService.getDashboardStats.  The enrolled-students count filters on
the SQL condition classId = classId, which under three-valued logic is true
exactly for the rows whose classId is not NULL; the rate is
Math.round((enrolled / total) * 100), or 0 when there are no students. -/
def getDashboardStats (db : DB) : DashboardStats :=
  let totalStudents := db.students.length
  let activeClasses := db.classes.length
  let totalTeachers := (db.users.filter (fun u => u.role == Role.teacher)).length
  let enrolledStudents := (db.students.filter (fun s => sqlEqOpt s.classId s.classId)).length
  let enrollmentRate :=
    if 0 < totalStudents then jsMathRound (enrolledStudents * 100) totalStudents else 0
  { totalStudents := totalStudents, activeClasses := activeClasses,
    totalTeachers := totalTeachers, enrollmentRate := enrollmentRate }

end AdminService

/-- The error kinds of the error-handling design, without message text. -/
inductive ErrKind where
  | notFound
  | invalidReference
  | conflict
  | capacityExceeded
  | preconditionFailed
  | internal
deriving DecidableEq

/-- Kind of a thrown error, forgetting the message. -/
def Err.kind : Err → ErrKind
  | .notFound _ => .notFound
  | .invalidReference _ => .invalidReference
  | .conflict _ => .conflict
  | .capacityExceeded _ => .capacityExceeded
  | .preconditionFailed _ => .preconditionFailed
  | .internal _ => .internal

/-- An operation result with the error message forgotten: the observable
outcome an HTTP caller can distinguish. -/
inductive Outcome (α : Type) where
  | ok (a : α) (db : DB)
  | err (k : ErrKind) (db : DB)
deriving DecidableEq

/-- Forget error messages of a result. -/
def Res.toOutcome : Res α → Outcome α
  | .ok a db => .ok a db
  | .error e db => .err e.kind db

/-- Modelled from the spec: the enrollStudent contract of section 4.3,
word for word — NotFound when the class or the student is absent, Conflict
when the current class of the student already equals classId,
CapacityExceeded when the class already has 5 enrolled students, otherwise
the class reference is set and the timestamp updated. -/
def enrollStudentSpec (now : Nat) (classId studentId : Nat) (db : DB) : Res Unit :=
  if (db.classes.find? (fun c => c.id == classId)).isNone then
    .error (.notFound "class absent") db
  else
    match db.students.find? (fun s => s.id == studentId) with
    | none => .error (.notFound "student absent") db
    | some student =>
      if student.classId == some classId then
        .error (.conflict "already enrolled in this class") db
      else if 5 ≤ classStudentCount db classId then
        .error (.capacityExceeded "the class already has 5 enrolled students") db
      else
        .ok () { db with students := db.students.map (setClass studentId (some classId) now) }

/-- One operation of the Enrollment and Capacity Manager, with the request
timestamp it runs at. -/
inductive EcmOp where
  | enroll (classId studentId : Nat)
  | unenroll (studentId : Nat)
  | assignT (classId teacherId : Nat)
  | removeT (classId : Nat)

/-- Run one Enrollment and Capacity Manager operation. -/
def applyEcm (now : Nat) (op : EcmOp) (db : DB) : Res Unit :=
  match op with
  | .enroll c s => ClassService.enrollStudent now c s db
  | .unenroll s => ClassService.removeStudentFromClass now s db
  | .assignT c t =>
    (match ClassService.assignTeacherToClass now c t db with
     | .ok _ db2 => .ok () db2
     | .error e db2 => .error e db2)
  | .removeT c =>
    (match ClassService.removeTeacherFromClass now c db with
     | .ok _ db2 => .ok () db2
     | .error e db2 => .error e db2)

/-- Run a sequence of Enrollment and Capacity Manager operations, stopping
at the first failure. -/
def runEcmOps : List (Nat × EcmOp) → DB → Res Unit
  | [], db => .ok () db
  | (now, op) :: rest, db =>
    match applyEcm now op db with
    | .ok _ db2 => runEcmOps rest db2
    | .error e db2 => .error e db2

/-- setClass never changes the primary key of a row. -/
theorem setClass_id (sid : Nat) (v : Option Nat) (now : Nat) (s : Student) :
    (setClass sid v now s).id = s.id := by
  unfold setClass
  split <;> rfl

/-- The drizzle update keeps the list of primary keys of the table. -/
theorem map_setClass_ids (l : List Student) (sid : Nat) (v : Option Nat) (now : Nat) :
    (l.map (setClass sid v now)).map Student.id = l.map Student.id := by
  induction l with
  | nil => rfl
  | cons s l ih => simp [setClass_id, ih]

/-- Looking the updated row up again finds the updated image of the row
found before the update. -/
theorem find?_map_setClass (l : List Student) (sid : Nat) (v : Option Nat) (now : Nat) :
    (l.map (setClass sid v now)).find? (fun s => s.id == sid)
      = (l.find? (fun s => s.id == sid)).map (setClass sid v now) := by
  rw [List.find?_map]
  have hp : ((fun s : Student => s.id == sid) ∘ setClass sid v now)
      = (fun s : Student => s.id == sid) := by
    funext s
    by_cases h : s.id == sid <;> simp [Function.comp, setClass, h]
  rw [hp]

/-- countIn as a countP. -/
theorem countIn_eq_countP (l : List Student) (c : Nat) :
    countIn l c = l.countP (fun s => s.classId == some c) := by
  simp [countIn, List.countP_eq_length_filter]

/-- Updating a row to a class reference other than c cannot increase the
enrolled count of c. -/
theorem countIn_map_setClass_le (l : List Student) (sid : Nat) (v : Option Nat)
    (now c : Nat) (hv : v ≠ some c) :
    countIn (l.map (setClass sid v now)) c ≤ countIn l c := by
  simp only [countIn_eq_countP]
  induction l with
  | nil => simp
  | cons s l ih =>
    simp only [List.map_cons, List.countP_cons]
    by_cases h : s.id == sid
    · have hs : (setClass sid v now s).classId = v := by simp [setClass, h]
      have hv' : (v == some c) = false := by simpa using hv
      simp only [hs, hv']
      simp only [cond_false, if_neg Bool.false_ne_true]
      omega
    · have hs : setClass sid v now s = s := by simp [setClass, h]
      rw [hs]
      omega

/-- Updating a row into class c increases the enrolled count of c by at
most the number of rows carrying the updated id. -/
theorem countIn_map_setClass_self_le (l : List Student) (sid : Nat)
    (now c : Nat) :
    countIn (l.map (setClass sid (some c) now)) c
      ≤ countIn l c + l.countP (fun s => s.id == sid) := by
  simp only [countIn_eq_countP]
  induction l with
  | nil => simp
  | cons s l ih =>
    simp only [List.map_cons, List.countP_cons]
    by_cases h : s.id == sid
    · have hs : (setClass sid (some c) now s).classId = some c := by simp [setClass, h]
      simp only [hs, h]
      simp only [beq_self_eq_true, if_pos rfl]
      omega
    · have hs : setClass sid (some c) now s = s := by simp [setClass, h]
      have h' : ((fun s : Student => s.id == sid) s) = false := by simpa using h
      rw [hs]
      simp only [h']
      omega

/-- In a table with pairwise distinct primary keys, at most one row carries
a given id. -/
theorem countP_id_le_one (l : List Student) (sid : Nat)
    (hids : (l.map Student.id).Nodup) :
    l.countP (fun s => s.id == sid) ≤ 1 := by
  induction l with
  | nil => simp
  | cons s l ih =>
    simp only [List.map_cons, List.nodup_cons] at hids
    simp only [List.countP_cons]
    by_cases h : s.id == sid
    · have hsid : s.id = sid := by simpa using h
      have hzero : l.countP (fun t => t.id == sid) = 0 := by
        rw [List.countP_eq_zero]
        intro t ht
        have : t.id ≠ s.id := by
          intro he
          exact hids.1 (by rw [← he]; exact List.mem_map_of_mem Student.id ht)
        simp [hsid ▸ this]
      simp [h, hzero]
    · have h' : ((fun t : Student => t.id == sid) s) = false := by simpa using h
      simp only [h', if_neg Bool.false_ne_true]
      have := ih hids.2
      omega

/-- The 5-seat capacity bound: no class of the database has more than 5
enrolled students. -/
def CapInv (db : DB) : Prop :=
  ∀ c ∈ db.classes, classStudentCount db c.id ≤ 5

/-- A well-formed reachable table state: distinct student primary keys and
the capacity bound. -/
def GoodState (db : DB) : Prop :=
  (db.students.map Student.id).Nodup ∧ CapInv db

/-- A successful enrollStudent keeps distinct student ids and the 5-seat
bound of every class. -/
theorem enrollStudent_ok_preserves (now cid sid : Nat) (db db' : DB)
    (hgood : GoodState db)
    (h : ClassService.enrollStudent now cid sid db = .ok () db') :
    GoodState db' ∧ db'.classes = db.classes := by
  obtain ⟨hids, hinv⟩ := hgood
  unfold ClassService.enrollStudent at h
  split at h
  · exact absurd h (by simp)
  split at h
  · exact absurd h (by simp)
  split at h
  · exact absurd h (by simp)
  split at h
  · exact absurd h (by simp)
  rename_i hcap
  dsimp only at h
  split at h
  · injection h with h1 h2
    subst h2
    refine ⟨⟨?_, ?_⟩, rfl⟩
    · rw [map_setClass_ids]
      exact hids
    · intro c hc
      simp only [classStudentCount] at *
      by_cases hcc : c.id = cid
      · rw [hcc]
        have hb1 := countIn_map_setClass_self_le db.students sid now cid
        have hb2 := countP_id_le_one db.students sid hids
        have hb3 : ¬ 5 ≤ countIn db.students cid := hcap
        omega
      · have hb1 := countIn_map_setClass_le db.students sid (some cid) now c.id
          (by intro he; exact hcc (by injection he; omega))
        have hb2 : countIn db.students c.id ≤ 5 := hinv c hc
        omega
  · exact absurd h (by simp)

/-- A successful removeStudentFromClass keeps distinct student ids and the
5-seat bound of every class. -/
theorem removeStudent_ok_preserves (now sid : Nat) (db db' : DB)
    (hgood : GoodState db)
    (h : ClassService.removeStudentFromClass now sid db = .ok () db') :
    GoodState db' ∧ db'.classes = db.classes := by
  obtain ⟨hids, hinv⟩ := hgood
  unfold ClassService.removeStudentFromClass at h
  split at h
  · exact absurd h (by simp)
  split at h
  · exact absurd h (by simp)
  dsimp only at h
  split at h
  · injection h with h1 h2
    subst h2
    refine ⟨⟨?_, ?_⟩, rfl⟩
    · rw [map_setClass_ids]
      exact hids
    · intro c hc
      simp only [classStudentCount] at *
      have hb1 := countIn_map_setClass_le db.students sid none now c.id (by simp)
      have hb2 : countIn db.students c.id ≤ 5 := hinv c hc
      omega
  · exact absurd h (by simp)

/-- A successful assignTeacherToClass changes no student row and keeps the
set of class primary keys, hence the 5-seat bound of every class. -/
theorem assignTeacher_ok_preserves (now cid tid : Nat) (db db' : DB) (cls : SchoolClass)
    (hgood : GoodState db)
    (h : ClassService.assignTeacherToClass now cid tid db = .ok cls db') :
    GoodState db' := by
  obtain ⟨hids, hinv⟩ := hgood
  unfold ClassService.assignTeacherToClass at h
  split at h
  · exact absurd h (by simp)
  split at h
  · exact absurd h (by simp)
  split at h
  · exact absurd h (by simp)
  dsimp only at h
  split at h
  · injection h with h1 h2
    subst h2
    refine ⟨hids, ?_⟩
    intro c hc
    simp only [classStudentCount, countIn] at *
    obtain ⟨c0, hc0, rfl⟩ := List.mem_map.1 hc
    have hid : (if c0.id == cid then { c0 with teacherId := some tid, updatedAt := now } else c0).id = c0.id := by
      split <;> rfl
    rw [hid]
    exact hinv c0 hc0
  · exact absurd h (by simp)

/-- A successful removeTeacherFromClass changes no student row and keeps
the set of class primary keys, hence the 5-seat bound of every class. -/
theorem removeTeacher_ok_preserves (now cid : Nat) (db db' : DB) (cls : SchoolClass)
    (hgood : GoodState db)
    (h : ClassService.removeTeacherFromClass now cid db = .ok cls db') :
    GoodState db' := by
  obtain ⟨hids, hinv⟩ := hgood
  unfold ClassService.removeTeacherFromClass at h
  split at h
  · exact absurd h (by simp)
  dsimp only at h
  split at h
  · injection h with h1 h2
    subst h2
    refine ⟨hids, ?_⟩
    intro c hc
    simp only [classStudentCount, countIn] at *
    obtain ⟨c0, hc0, rfl⟩ := List.mem_map.1 hc
    have hid : (if c0.id == cid then { c0 with teacherId := none, updatedAt := now } else c0).id = c0.id := by
      split <;> rfl
    rw [hid]
    exact hinv c0 hc0
  · exact absurd h (by simp)

/-- Every successful Enrollment and Capacity Manager step preserves the
well-formed state. -/
theorem applyEcm_ok_preserves (now : Nat) (op : EcmOp) (db db' : DB)
    (hgood : GoodState db)
    (h : applyEcm now op db = .ok () db') :
    GoodState db' := by
  cases op with
  | enroll c s => exact (enrollStudent_ok_preserves now c s db db' hgood h).1
  | unenroll s => exact (removeStudent_ok_preserves now s db db' hgood h).1
  | assignT c t =>
    simp only [applyEcm] at h
    split at h
    · next cls db2 heq =>
      injection h with h1 h2
      subst h2
      exact assignTeacher_ok_preserves now c t db db2 cls hgood heq
    · exact absurd h (by simp)
  | removeT c =>
    simp only [applyEcm] at h
    split at h
    · next cls db2 heq =>
      injection h with h1 h2
      subst h2
      exact removeTeacher_ok_preserves now c db db2 cls hgood heq
    · exact absurd h (by simp)

/-- A successful sequence of Enrollment and Capacity Manager operations
preserves the well-formed state. -/
theorem runEcmOps_ok_preserves (ops : List (Nat × EcmOp)) (db db' : DB)
    (hgood : GoodState db)
    (h : runEcmOps ops db = .ok () db') :
    GoodState db' := by
  induction ops generalizing db with
  | nil =>
    simp only [runEcmOps] at h
    injection h with h1 h2
    subst h2
    exact hgood
  | cons p rest ih =>
    obtain ⟨now, op⟩ := p
    simp only [runEcmOps] at h
    split at h
    · next u db2 heq =>
      exact ih db2 (applyEcm_ok_preserves now op db db2 hgood heq) h
    · exact absurd h (by simp)

/-- A general form of find?_map_setClass: the drizzle update of a single
row never changes primary keys, so looking a row up by id after the update
finds the updated image of the row found before it. -/
theorem find?_map_id_preserving (l : List Student) (sid : Nat) (f : Student → Student)
    (hf : ∀ s, (f s).id = s.id) :
    (l.map f).find? (fun s => s.id == sid) = (l.find? (fun s => s.id == sid)).map f := by
  rw [List.find?_map]
  have hp : ((fun s : Student => s.id == sid) ∘ f) = fun s : Student => s.id == sid := by
    funext s
    simp [Function.comp, hf]
  rw [hp]

/-- State of the witness run for claim C1: one empty class and one
unassigned student. -/
def dbC1 : DB :=
  { users := [],
    classes := [{ id := 1, name := "Mathematics", sectionLabel := "A", teacherId := none,
                  createdAt := 0, updatedAt := 0 }],
    students := [{ id := 1, name := "Alice", age := 10, classId := none,
                   createdAt := 0, updatedAt := 0 }],
    nextClassId := 2, nextStudentId := 2 }

/-- Witness operation sequence for claim C1: an enroll followed by an
unenroll. -/
def opsC1 : List (Nat × EcmOp) := [(1, .enroll 1 1), (2, .unenroll 1)]

/-- Resulting state of the witness run for claim C1. -/
def dbC1' : DB :=
  { users := [],
    classes := [{ id := 1, name := "Mathematics", sectionLabel := "A", teacherId := none,
                  createdAt := 0, updatedAt := 0 }],
    students := [{ id := 1, name := "Alice", age := 10, classId := none,
                   createdAt := 0, updatedAt := 2 }],
    nextClassId := 2, nextStudentId := 2 }

/-- Claim C1: in a state with pairwise distinct student primary keys in
which every class has at most 5 enrolled students, every successful
sequence of Enrollment and Capacity Manager operations (enrollStudent,
removeStudentFromClass, assignTeacherToClass, removeTeacherFromClass)
leaves every class with at most 5 enrolled students. -/
theorem ecm_ops_preserve_capacity (ops : List (Nat × EcmOp)) (db db' : DB)
    (hids : (db.students.map Student.id).Nodup)
    (hinv : ∀ c ∈ db.classes, classStudentCount db c.id ≤ 5)
    (hrun : runEcmOps ops db = .ok () db') :
    ∀ c ∈ db'.classes, classStudentCount db' c.id ≤ 5 :=
  (runEcmOps_ok_preserves ops db db' ⟨hids, hinv⟩ hrun).2

/-- Witness for claim C1: the concrete two-operation run satisfies the
hypotheses, and the bound holds afterwards. -/
theorem ecm_ops_preserve_capacity_witness :
    ((dbC1.students.map Student.id).Nodup
      ∧ (∀ c ∈ dbC1.classes, classStudentCount dbC1 c.id ≤ 5)
      ∧ runEcmOps opsC1 dbC1 = .ok () dbC1')
    ∧ (∀ c ∈ dbC1'.classes, classStudentCount dbC1' c.id ≤ 5) :=
  ⟨⟨by decide, by decide, by decide⟩,
   ecm_ops_preserve_capacity opsC1 dbC1 dbC1' (by decide) (by decide) (by decide)⟩

/-- Claim C2: enrollStudent and the spec contract of section 4.3 give the
same observable outcome on every input — NotFound when the class or the
student is absent, then Conflict when the student is already in that class,
then CapacityExceeded when the class has 5 enrolled students, otherwise
success setting the class reference and refreshing the timestamp, with the
checks in exactly that order of precedence. -/
theorem enrollStudent_matches_spec (now classId studentId : Nat) (db : DB) :
    (ClassService.enrollStudent now classId studentId db).toOutcome
      = (enrollStudentSpec now classId studentId db).toOutcome := by
  unfold ClassService.enrollStudent enrollStudentSpec ClassService.getClassById
  cases hc : db.classes.find? (fun c => c.id == classId) with
  | none => simp [Res.toOutcome, Err.kind]
  | some classInfo =>
    cases hs : db.students.find? (fun s => s.id == studentId) with
    | none => simp [Res.toOutcome, Err.kind]
    | some student =>
      by_cases hconf : student.classId == some classId
      · simp [hconf, Res.toOutcome, Err.kind]
      · by_cases hcap : 5 ≤ classStudentCount db classId
        · simp [hconf, hcap, Res.toOutcome, Err.kind]
        · have hfind := find?_map_setClass db.students studentId (some classId) now
          rw [hs] at hfind
          simp [hconf, hcap, hfind, Res.toOutcome]

/-- State for claim C3: teacher account 1 already owns five classes. -/
def dbC3 : DB :=
  { users := [{ id := 1, name := "Tina", email := "tina@school.test", role := Role.teacher }],
    classes :=
      [{ id := 1, name := "Math1", sectionLabel := "A", teacherId := some 1, createdAt := 0, updatedAt := 0 },
       { id := 2, name := "Math2", sectionLabel := "A", teacherId := some 1, createdAt := 0, updatedAt := 0 },
       { id := 3, name := "Math3", sectionLabel := "A", teacherId := some 1, createdAt := 0, updatedAt := 0 },
       { id := 4, name := "Math4", sectionLabel := "A", teacherId := some 1, createdAt := 0, updatedAt := 0 },
       { id := 5, name := "Math5", sectionLabel := "A", teacherId := some 1, createdAt := 0, updatedAt := 0 }],
    students := [], nextClassId := 6, nextStudentId := 1 }

/-- The class created by the counterexample run of claim C3. -/
def newClassC3 : SchoolClass :=
  { id := 6, name := "Math6", sectionLabel := "A", teacherId := some 1,
    createdAt := 9, updatedAt := 9 }

/-- State after the counterexample run of claim C3: teacher 1 owns six
classes. -/
def dbC3' : DB :=
  { dbC3 with classes := dbC3.classes ++ [newClassC3], nextClassId := 7 }

/-- Counterexample to claim C3: with teacher 1 owning exactly 5 classes,
createClass with that teacherId succeeds and gives the teacher a 6th class
instead of failing with CapacityExceeded. -/
theorem createClass_sixth_class_counterexample :
    teacherOwns dbC3 1 = 5
    ∧ ClassService.createClass 9 "Math6" "A" (some 1) dbC3 = .ok newClassC3 dbC3'
    ∧ teacherOwns dbC3' 1 = 6 := by
  decide

/-- Claim C3 amended: when the duplicate check does not fire and a nonzero
teacherId is given, createClass fails with InvalidReference exactly when no
account with that id and role teacher exists; when such an account exists
the call succeeds unconditionally — there is no teacher-capacity check, so
the owned-class count of the teacher simply grows by one. -/
theorem createClass_teacher_check_without_capacity (now : Nat) (name sectionLabel : String)
    (t : Nat) (db : DB) (ht : t ≠ 0)
    (hnoconf : (match db.classes.find? (fun c => c.name == name) with
       | some c => c.sectionLabel == sectionLabel
       | none => false) = false) :
    (db.users.find? (fun u => u.id == t && u.role == Role.teacher) = none →
      ClassService.createClass now name sectionLabel (some t) db
        = .error (.invalidReference "Invalid teacher ID. User must exist and have teacher role.") db)
    ∧ ((db.users.find? (fun u => u.id == t && u.role == Role.teacher)).isSome →
      ClassService.createClass now name sectionLabel (some t) db
        = .ok { id := db.nextClassId, name := name, sectionLabel := sectionLabel,
                teacherId := some t, createdAt := now, updatedAt := now }
            { db with
                classes := db.classes ++
                  [{ id := db.nextClassId, name := name, sectionLabel := sectionLabel,
                     teacherId := some t, createdAt := now, updatedAt := now }],
                nextClassId := db.nextClassId + 1 }
      ∧ teacherOwns
          { db with
              classes := db.classes ++
                [{ id := db.nextClassId, name := name, sectionLabel := sectionLabel,
                   teacherId := some t, createdAt := now, updatedAt := now }],
              nextClassId := db.nextClassId + 1 } t
          = teacherOwns db t + 1) := by
  have htr : truthy (some t) = true := by simp [truthy, ht]
  constructor
  · intro hnone
    unfold ClassService.createClass
    simp [hnoconf, htr, hnone]
  · intro hsome
    have hnotnone : (db.users.find? (fun u => u.id == t && u.role == Role.teacher)).isNone = false := by
      simp only [Option.isNone_eq_false_iff]
      exact hsome
    constructor
    · unfold ClassService.createClass
      simp [hnoconf, htr, hnotnone]
    · simp [teacherOwns, List.filter_append]

/-- Witness for the amended claim C3: applied at the concrete 5-class
state. -/
theorem createClass_teacher_check_without_capacity_witness :
    ((1 : Nat) ≠ 0
      ∧ (match dbC3.classes.find? (fun c => c.name == "Math6") with
         | some c => c.sectionLabel == "A"
         | none => false) = false)
    ∧ ((dbC3.users.find? (fun u => u.id == 1 && u.role == Role.teacher) = none →
      ClassService.createClass 9 "Math6" "A" (some 1) dbC3
        = .error (.invalidReference "Invalid teacher ID. User must exist and have teacher role.") dbC3)
    ∧ ((dbC3.users.find? (fun u => u.id == 1 && u.role == Role.teacher)).isSome →
      ClassService.createClass 9 "Math6" "A" (some 1) dbC3
        = .ok { id := dbC3.nextClassId, name := "Math6", sectionLabel := "A",
                teacherId := some 1, createdAt := 9, updatedAt := 9 }
            { dbC3 with
                classes := dbC3.classes ++
                  [{ id := dbC3.nextClassId, name := "Math6", sectionLabel := "A",
                     teacherId := some 1, createdAt := 9, updatedAt := 9 }],
                nextClassId := dbC3.nextClassId + 1 }
      ∧ teacherOwns
          { dbC3 with
              classes := dbC3.classes ++
                [{ id := dbC3.nextClassId, name := "Math6", sectionLabel := "A",
                   teacherId := some 1, createdAt := 9, updatedAt := 9 }],
              nextClassId := dbC3.nextClassId + 1 } 1
          = teacherOwns dbC3 1 + 1)) :=
  ⟨⟨by decide, by decide⟩,
   createClass_teacher_check_without_capacity 9 "Math6" "A" 1 dbC3 (by decide) (by decide)⟩

/-- State for claim C4: teacher account 1 owns exactly the five classes
M1..M5; class 1 is already assigned to teacher 1. -/
def dbC4 : DB :=
  { users := [{ id := 1, name := "Tina", email := "tina@school.test", role := Role.teacher }],
    classes :=
      [{ id := 1, name := "M1", sectionLabel := "A", teacherId := some 1, createdAt := 0, updatedAt := 0 },
       { id := 2, name := "M2", sectionLabel := "A", teacherId := some 1, createdAt := 0, updatedAt := 0 },
       { id := 3, name := "M3", sectionLabel := "A", teacherId := some 1, createdAt := 0, updatedAt := 0 },
       { id := 4, name := "M4", sectionLabel := "A", teacherId := some 1, createdAt := 0, updatedAt := 0 },
       { id := 5, name := "M5", sectionLabel := "A", teacherId := some 1, createdAt := 0, updatedAt := 0 }],
    students := [], nextClassId := 6, nextStudentId := 1 }

/-- Counterexample to claim C4: class 1 is already assigned to teacher 1,
who owns exactly 5 classes, yet re-assigning class 1 to teacher 1 fails
with CapacityExceeded instead of succeeding idempotently. -/
theorem assignTeacher_not_idempotent_counterexample :
    (ClassService.getClassById dbC4 1).map (fun c => c.teacherId) = some (some 1)
    ∧ teacherOwns dbC4 1 = 5
    ∧ ClassService.assignTeacherToClass 7 1 1 dbC4
        = .error (.capacityExceeded "Teacher cannot be assigned to more than 5 sections") dbC4 := by
  decide

/-- Claim C4 amended: whenever the class and the teacher exist and the
teacher already owns 5 classes, assignTeacherToClass fails with
CapacityExceeded — also when the target class is already assigned to that
very teacher, so re-assignment at capacity is rejected rather than an
idempotent success (the M6 half of the scenario does hold). -/
theorem assignTeacher_at_capacity_always_fails (now cid t : Nat) (db : DB)
    (cls : SchoolClass) (u : User)
    (hc : ClassService.getClassById db cid = some cls)
    (hu : db.users.find? (fun v => v.id == t && v.role == Role.teacher) = some u)
    (hf : 5 ≤ teacherOwns db t) :
    ClassService.assignTeacherToClass now cid t db
      = .error (.capacityExceeded "Teacher cannot be assigned to more than 5 sections") db := by
  unfold ClassService.assignTeacherToClass
  rw [hc, hu]
  have hf' : 5 ≤ (db.classes.filter (fun c => c.teacherId == some t)).length := hf
  simp [hf']

/-- Witness for the amended claim C4: the concrete re-assignment of class 1
to teacher 1 at capacity. -/
theorem assignTeacher_at_capacity_always_fails_witness :
    (ClassService.getClassById dbC4 1
        = some { id := 1, name := "M1", sectionLabel := "A", teacherId := some 1,
                 createdAt := 0, updatedAt := 0 }
      ∧ dbC4.users.find? (fun v => v.id == 1 && v.role == Role.teacher)
        = some { id := 1, name := "Tina", email := "tina@school.test", role := Role.teacher }
      ∧ 5 ≤ teacherOwns dbC4 1)
    ∧ ClassService.assignTeacherToClass 7 1 1 dbC4
        = .error (.capacityExceeded "Teacher cannot be assigned to more than 5 sections") dbC4 :=
  ⟨⟨by decide, by decide, by decide⟩,
   assignTeacher_at_capacity_always_fails 7 1 1 dbC4
     { id := 1, name := "M1", sectionLabel := "A", teacherId := some 1,
       createdAt := 0, updatedAt := 0 }
     { id := 1, name := "Tina", email := "tina@school.test", role := Role.teacher }
     (by decide) (by decide) (by decide)⟩

/-- State for claim C5: two classes named Science, sections A and B. -/
def dbC5 : DB :=
  { users := [],
    classes :=
      [{ id := 1, name := "Science", sectionLabel := "A", teacherId := none, createdAt := 0, updatedAt := 0 },
       { id := 2, name := "Science", sectionLabel := "B", teacherId := none, createdAt := 0, updatedAt := 0 }],
    students := [], nextClassId := 3, nextStudentId := 1 }

/-- State after the failing createClass of claim C5: two distinct rows both
carrying the pair (Science, B). -/
def dbC5' : DB :=
  { dbC5 with
      classes := dbC5.classes ++
        [{ id := 3, name := "Science", sectionLabel := "B", teacherId := none,
           createdAt := 7, updatedAt := 7 }],
      nextClassId := 4 }

/-- Failing input for claim C5: with (Science, A) inserted before
(Science, B), creating (Science, B) again succeeds — the duplicate check
reads only the first row whose name matches and compares its section — and
leaves two classes with the same (name, section) pair, although the code
comments and the spec both require a Conflict. -/
theorem createClass_duplicate_pair_code_bug :
    (dbC5.classes.filter (fun c => c.name == "Science" && c.sectionLabel == "B")).length = 1
    ∧ ClassService.createClass 7 "Science" "B" none dbC5
        = .ok { id := 3, name := "Science", sectionLabel := "B", teacherId := none,
                createdAt := 7, updatedAt := 7 } dbC5'
    ∧ (dbC5'.classes.filter (fun c => c.name == "Science" && c.sectionLabel == "B")).length = 2 := by
  decide

/-- When the student exists, the write phase of updateStudent always
succeeds and returns the joined view of the updated row over the updated
table. -/
theorem updateStudentWrite_ok (now id : Nat) (name? : Option String) (age? : Option Nat)
    (classId? : Option (Option Nat)) (db : DB) (st : Student)
    (hs : db.students.find? (fun s => s.id == id) = some st) :
    StudentService.updateStudentWrite now id name? age? classId? db
      = .ok (StudentService.viewOf
              { db with students := db.students.map (updApply now id name? age? classId?) }
              (updApply now id name? age? classId? st))
            { db with students := db.students.map (updApply now id name? age? classId?) } := by
  have hfind := find?_map_id_preserving db.students id (updApply now id name? age? classId?)
    (fun s => by unfold updApply; split <;> rfl)
  rw [hs] at hfind
  unfold StudentService.updateStudentWrite StudentService.getStudentById
  dsimp only
  rw [hfind]
  rfl

/-- Claim C6: for an existing student whose current class reference is c
(with c present in the classes table, as the foreign key guarantees),
updateStudent with classId = c performs no capacity check and succeeds —
with no bound whatsoever on how many students class c already has — and the
class reference stays c; the capacity check runs only when the target class
differs from the current one. -/
theorem updateStudent_same_class_skips_capacity (now sid c : Nat) (db : DB) (st : Student)
    (hs : db.students.find? (fun s => s.id == sid) = some st)
    (hst : st.classId = some c)
    (hcls : (db.classes.find? (fun k => k.id == c)).isSome) :
    ∃ v db2, StudentService.updateStudent now sid none none (some (some c)) db = .ok v db2
      ∧ v.classId = some c := by
  obtain ⟨cls, hcls'⟩ := Option.isSome_iff_exists.mp hcls
  have hid : (st.id == sid) = true := by
    have := List.find?_some hs
    simpa using this
  have hwrite := updateStudentWrite_ok now sid none none (some (some c)) db st hs
  unfold StudentService.updateStudent StudentService.getStudentById
  rw [hs]
  dsimp only
  rw [hcls']
  dsimp only
  have hcond : ((StudentService.viewOf db st).classId != some c) = false := by
    simp [StudentService.viewOf, hst]
  rw [hcond]
  refine ⟨_, _, hwrite, ?_⟩
  simp [StudentService.viewOf, updApply, hid]

/-- State for the witness of claim C6: class 1 already holds five students,
one of whom (id 1) is updated to the class it is already in. -/
def dbC6 : DB :=
  { users := [],
    classes := [{ id := 1, name := "Mathematics", sectionLabel := "A", teacherId := none,
                  createdAt := 0, updatedAt := 0 }],
    students :=
      [{ id := 1, name := "S1", age := 10, classId := some 1, createdAt := 0, updatedAt := 0 },
       { id := 2, name := "S2", age := 10, classId := some 1, createdAt := 0, updatedAt := 0 },
       { id := 3, name := "S3", age := 10, classId := some 1, createdAt := 0, updatedAt := 0 },
       { id := 4, name := "S4", age := 10, classId := some 1, createdAt := 0, updatedAt := 0 },
       { id := 5, name := "S5", age := 10, classId := some 1, createdAt := 0, updatedAt := 0 }],
    nextClassId := 2, nextStudentId := 6 }

/-- Witness for claim C6: the class is at 5 of 5 seats and the same-class
update still succeeds. -/
theorem updateStudent_same_class_skips_capacity_witness :
    (dbC6.students.find? (fun s => s.id == 1)
        = some { id := 1, name := "S1", age := 10, classId := some 1, createdAt := 0, updatedAt := 0 }
      ∧ ({ id := 1, name := "S1", age := 10, classId := some 1, createdAt := 0,
           updatedAt := 0 } : Student).classId = some 1
      ∧ (dbC6.classes.find? (fun k => k.id == 1)).isSome
      ∧ 5 ≤ classStudentCount dbC6 1)
    ∧ (∃ v db2, StudentService.updateStudent 3 1 none none (some (some 1)) dbC6 = .ok v db2
        ∧ v.classId = some 1) :=
  ⟨⟨by decide, by decide, by decide, by decide⟩,
   updateStudent_same_class_skips_capacity 3 1 1 dbC6
     { id := 1, name := "S1", age := 10, classId := some 1, createdAt := 0, updatedAt := 0 }
     (by decide) (by decide) (by decide)⟩

/-- A lookup over a table extended with a row matching the predicate always
finds something. -/
theorem find?_append_singleton_isSome (l : List Student) (x : Student)
    (p : Student → Bool) (hx : p x = true) : ((l ++ [x]).find? p).isSome := by
  cases hf : (l ++ [x]).find? p with
  | some _ => rfl
  | none =>
    exfalso
    have := List.find?_eq_none.mp hf x (by simp)
    simp [hx] at this

/-- The insert phase of createStudent never fails: the freshly inserted row
is always found again. -/
theorem createStudentInsert_never_fails (now : Nat) (name : String) (age : Nat)
    (classId? : Option Nat) (db : DB) :
    ∃ v db2, StudentService.createStudentInsert now name age classId? db = .ok v db2 := by
  unfold StudentService.createStudentInsert
  dsimp only
  unfold StudentService.getStudentById
  have hsome := find?_append_singleton_isSome db.students
    { id := db.nextStudentId, name := name, age := age,
      classId := if truthy classId? then classId? else none,
      createdAt := now, updatedAt := now }
    (fun s => s.id == db.nextStudentId) (by simp)
  obtain ⟨v, hv⟩ := Option.isSome_iff_exists.mp hsome
  rw [hv]
  exact ⟨_, _, rfl⟩

/-- Claim C7: whenever createStudent fails (class-existence or capacity
check), the students table afterwards is exactly the students table before
the call — no row is inserted on any failing path. -/
theorem createStudent_failure_no_insert (now : Nat) (name : String) (age : Nat)
    (classId? : Option Nat) (db : DB) (e : Err) (db2 : DB)
    (h : StudentService.createStudent now name age classId? db = .error e db2) :
    db2.students = db.students := by
  unfold StudentService.createStudent at h
  split at h
  · split at h
    · injection h with h1 h2
      rw [← h2]
    · split at h
      · injection h with h1 h2
        rw [← h2]
      · obtain ⟨v, db3, hok⟩ := createStudentInsert_never_fails now name age classId? db
        rw [hok] at h
        exact absurd h (by simp)
  · obtain ⟨v, db3, hok⟩ := createStudentInsert_never_fails now name age classId? db
    rw [hok] at h
    exact absurd h (by simp)

/-- State for the witness of claim C7: one existing student and no class,
so a create naming class 1 fails its existence check. -/
def dbC7 : DB :=
  { users := [], classes := [],
    students := [{ id := 1, name := "Ann", age := 11, classId := none, createdAt := 0, updatedAt := 0 }],
    nextClassId := 1, nextStudentId := 2 }

/-- Witness for claim C7: the concrete failing create leaves the one
existing student row untouched. -/
theorem createStudent_failure_no_insert_witness :
    (StudentService.createStudent 5 "Bob" 10 (some 1) dbC7
       = .error (.invalidReference "Specified class does not exist") dbC7)
    ∧ dbC7.students = dbC7.students :=
  ⟨by decide,
   createStudent_failure_no_insert 5 "Bob" 10 (some 1) dbC7
     (.invalidReference "Specified class does not exist") dbC7 (by decide)⟩

/-- State for claim C8: a single student with no class reference. -/
def dbC8 : DB :=
  { users := [], classes := [],
    students := [{ id := 1, name := "Alice", age := 10, classId := none, createdAt := 0, updatedAt := 0 }],
    nextClassId := 1, nextStudentId := 2 }

/-- Counterexample to claim C8: with one student and no enrollment the
dashboard reports an enrollment rate of 0, not 100 — the self-referential
SQL condition classId = classId is not true on a NULL column, so the filter
counts exactly the enrolled students. -/
theorem enrollment_rate_not_always_100 :
    (AdminService.getDashboardStats dbC8).totalStudents = 1
    ∧ (AdminService.getDashboardStats dbC8).enrollmentRate = 0
    ∧ (AdminService.getDashboardStats dbC8).enrollmentRate ≠ 100 := by
  decide

/-- Claim C8 amended: in every state with at least one student the
enrollment rate equals Math.round of 100 times the number of students whose
class reference is non-null over the total — the self-referential condition
filters out exactly the NULL rows under SQL three-valued logic, so the
statistic is the intended one and not constantly 100. -/
theorem enrollment_rate_counts_non_null (db : DB) (h : 0 < db.students.length) :
    (AdminService.getDashboardStats db).enrollmentRate
      = jsMathRound ((db.students.filter (fun s => s.classId.isSome)).length * 100)
          db.students.length := by
  unfold AdminService.getDashboardStats
  dsimp only
  rw [if_pos h]
  have hfe : db.students.filter (fun s => sqlEqOpt s.classId s.classId)
      = db.students.filter (fun s => s.classId.isSome) := by
    apply List.filter_congr
    intro s _
    cases hc : s.classId <;> simp [sqlEqOpt]
  rw [hfe]

/-- Witness for the amended claim C8, at the one-student state. -/
theorem enrollment_rate_counts_non_null_witness :
    0 < dbC8.students.length
    ∧ (AdminService.getDashboardStats dbC8).enrollmentRate
      = jsMathRound ((dbC8.students.filter (fun s => s.classId.isSome)).length * 100)
          dbC8.students.length :=
  ⟨by decide, enrollment_rate_counts_non_null dbC8 (by decide)⟩

/-- Claim C10: updating an existing student with classId null always
succeeds and clears the class reference, with no class-existence, capacity
or enrolled-state check; removeStudentFromClass on a student whose class
reference is already null instead fails with PreconditionFailed. -/
theorem updateStudent_null_clears_without_checks (now sid : Nat) (db : DB) (st : Student)
    (hs : db.students.find? (fun s => s.id == sid) = some st) :
    (∃ v db2, StudentService.updateStudent now sid none none (some none) db = .ok v db2
       ∧ v.classId = none)
    ∧ (st.classId = none →
        ClassService.removeStudentFromClass now sid db
          = .error (.preconditionFailed "Student is not enrolled in any class") db) := by
  have hid : (st.id == sid) = true := by simpa using List.find?_some hs
  constructor
  · have hwrite := updateStudentWrite_ok now sid none none (some none) db st hs
    unfold StudentService.updateStudent StudentService.getStudentById
    rw [hs]
    dsimp only
    refine ⟨_, _, hwrite, ?_⟩
    simp [StudentService.viewOf, updApply, hid]
  · intro hnone
    unfold ClassService.removeStudentFromClass
    rw [hs]
    dsimp only
    rw [hnone]
    simp [truthy]

/-- State for the witness of claim C10: one student with no class
reference. -/
def dbC10 : DB :=
  { users := [], classes := [],
    students := [{ id := 1, name := "Carl", age := 12, classId := none, createdAt := 0, updatedAt := 0 }],
    nextClassId := 1, nextStudentId := 2 }

/-- Witness for claim C10, at the unenrolled one-student state. -/
theorem updateStudent_null_clears_without_checks_witness :
    dbC10.students.find? (fun s => s.id == 1)
      = some { id := 1, name := "Carl", age := 12, classId := none, createdAt := 0, updatedAt := 0 }
    ∧ ((∃ v db2, StudentService.updateStudent 4 1 none none (some none) dbC10 = .ok v db2
         ∧ v.classId = none)
      ∧ (({ id := 1, name := "Carl", age := 12, classId := none, createdAt := 0,
            updatedAt := 0 } : Student).classId = none →
          ClassService.removeStudentFromClass 4 1 dbC10
            = .error (.preconditionFailed "Student is not enrolled in any class") dbC10)) :=
  ⟨by decide,
   updateStudent_null_clears_without_checks 4 1 dbC10
     { id := 1, name := "Carl", age := 12, classId := none, createdAt := 0, updatedAt := 0 }
     (by decide)⟩

/-- Nat ceiling division, as the source computes it, coincides with the
mathematical ceiling of the rational quotient. -/
theorem nat_ceilDiv_eq (t l : Nat) (hl : 0 < l) :
    (t + l - 1) / l = ⌈(t : ℚ) / (l : ℚ)⌉₊ := by
  rcases Nat.eq_zero_or_pos t with ht | ht
  · subst ht
    have h0 : (0 + l - 1) / l = 0 := Nat.div_eq_of_lt (by omega)
    rw [h0]
    simp
  · have hq : (0 : ℚ) < (l : ℚ) := by exact_mod_cast hl
    set n := (t + l - 1) / l with hn
    have hub : n * l ≤ t + l - 1 := Nat.div_mul_le_self _ _
    have hlb : t + l - 1 < (n + 1) * l :=
      (Nat.div_lt_iff_lt_mul hl).mp (by omega)
    have hn1 : 1 ≤ n := by
      have h2 : 1 ≤ (t + l - 1) / l := (Nat.le_div_iff_mul_le hl).mpr (by omega)
      omega
    have hmul1 : (n + 1) * l = n * l + l := by ring
    have hmul2 : (n - 1) * l + l = n * l := by
      have hsucc : n - 1 + 1 = n := by omega
      calc (n - 1) * l + l = (n - 1 + 1) * l := by ring
        _ = n * l := by rw [hsucc]
    symm
    rw [Nat.ceil_eq_iff (by omega : n ≠ 0)]
    constructor
    · rw [lt_div_iff₀ hq]
      have hnat : (n - 1) * l < t := by omega
      exact_mod_cast hnat
    · rw [div_le_iff₀ hq]
      have hnat : t ≤ n * l := by omega
      exact_mod_cast hnat

/-- Claim C9: for a 1-indexed page and a limit between 1 and the cap of
100, getStudents returns a page sorted by student name ascending, reports
totalPages as the ceiling of the total matching count over the limit, and
returns an empty page (not an error) when the offset is at or beyond the
total count. -/
theorem getStudents_pagination_contract (page limit : Nat) (classId? : Option Nat)
    (db : DB) (r : PaginatedStudents)
    (hr : r = StudentService.getStudents (some page) (some limit) classId? db)
    (hp : 1 ≤ page) (hl : 1 ≤ limit) (hcap : limit ≤ 100) :
    r.students.Pairwise (fun a b => a.name ≤ b.name)
    ∧ r.pagination.totalPages = ⌈(r.pagination.totalStudents : ℚ) / (limit : ℚ)⌉₊
    ∧ (r.pagination.totalStudents ≤ (page - 1) * limit → r.students = []) := by
  subst hr
  have hpage : jsOr (some page) 1 = page := by
    have hb : (page != 0) = true := by simp; omega
    simp [jsOr, truthy, hb]
  have hlimit : jsOr (some limit) 10 = limit := by
    have hb : (limit != 0) = true := by simp; omega
    simp [jsOr, truthy, hb]
  unfold StudentService.getStudents
  dsimp only
  rw [hpage, hlimit]
  set flt := db.students.filter (fun s =>
    if truthy classId? then s.classId == some (classId?.getD 0) else true) with hflt
  set srt := flt.mergeSort (fun a b => a.name ≤ b.name) with hsrt
  refine ⟨?_, ?_, ?_⟩
  · rw [List.pairwise_map]
    have htrans : ∀ a b c : Student, (fun a b : Student => decide (a.name ≤ b.name)) a b →
        (fun a b : Student => decide (a.name ≤ b.name)) b c →
        (fun a b : Student => decide (a.name ≤ b.name)) a c := by
      intro a b c hab hbc
      simp only [decide_eq_true_eq] at *
      exact le_trans hab hbc
    have htotal : ∀ a b : Student, ((fun a b : Student => decide (a.name ≤ b.name)) a b
        || (fun a b : Student => decide (a.name ≤ b.name)) b a) = true := by
      intro a b
      simp only [Bool.or_eq_true, decide_eq_true_eq]
      exact le_total a.name b.name
    have hs : srt.Pairwise (fun a b => decide (a.name ≤ b.name) = true) := by
      rw [hsrt]
      exact List.sorted_mergeSort htrans htotal flt
    have hsub : ((srt.drop ((page - 1) * limit)).take limit).Sublist srt :=
      (List.take_sublist _ _).trans (List.drop_sublist _ _)
    have hs2 := List.Pairwise.sublist hsub hs
    exact hs2.imp (fun h => by
      simp only [decide_eq_true_eq] at h
      simpa [StudentService.viewOf] using h)
  · exact nat_ceilDiv_eq _ limit (by omega)
  · intro hle
    have hlen : srt.length = flt.length := by
      rw [hsrt]
      exact List.length_mergeSort _
    have hdrop : srt.drop ((page - 1) * limit) = [] := by
      apply List.drop_eq_nil_of_le
      omega
    rw [hdrop]
    simp

/-- State for the witness of claim C9: two unenrolled students whose names
are out of order in the table. -/
def dbC9 : DB :=
  { users := [], classes := [],
    students :=
      [{ id := 1, name := "Ben", age := 10, classId := none, createdAt := 0, updatedAt := 0 },
       { id := 2, name := "Amy", age := 11, classId := none, createdAt := 0, updatedAt := 0 }],
    nextClassId := 1, nextStudentId := 3 }

/-- Witness for claim C9, at page 2 with limit 1 over the two-student
state. -/
theorem getStudents_pagination_contract_witness :
    ((1 : Nat) ≤ 2 ∧ (1 : Nat) ≤ 1 ∧ (1 : Nat) ≤ 100)
    ∧ ((StudentService.getStudents (some 2) (some 1) none dbC9).students.Pairwise
          (fun a b => a.name ≤ b.name)
      ∧ (StudentService.getStudents (some 2) (some 1) none dbC9).pagination.totalPages
          = ⌈((StudentService.getStudents (some 2) (some 1) none dbC9).pagination.totalStudents : ℚ)
              / ((1 : Nat) : ℚ)⌉₊
      ∧ ((StudentService.getStudents (some 2) (some 1) none dbC9).pagination.totalStudents
            ≤ (2 - 1) * 1 →
          (StudentService.getStudents (some 2) (some 1) none dbC9).students = [])) :=
  ⟨⟨by decide, by decide, by decide⟩,
   getStudents_pagination_contract 2 1 none dbC9 _ rfl (by decide) (by decide) (by decide)⟩
